import Mathlib

/-!
Verification development for the OrchidBot hydroponic controller core
(`src/core/safety.py`, `src/core/controller.py`, `src/sensors/moisture.py`,
`src/sensors/overflow.py`, `src/hardware/gpio_manager.py`).

The Python classes are embedded shallowly: mutable object state becomes
explicit state records, methods become pure state-transformer functions,
Python `dict`s become association lists with unique keys, `time.time()`
becomes an explicit `now : ℚ` argument, and `threading.Timer` callbacks
become entries in an explicit list of scheduled one-shot events.
-/

namespace OrchidBot

/-- Python `dict` lookup (`d.get(k)` / `k in d`): association-list lookup. -/
def dictGet {κ α : Type} [DecidableEq κ] : List (κ × α) → κ → Option α
  | [], _ => none
  | p :: rest, k => if p.1 = k then some p.2 else dictGet rest k

/-- Python `dict` assignment `d[k] = v`: replace the binding in place, or
append a new one.  Preserves the uniqueness of keys. -/
def dictSet {κ α : Type} [DecidableEq κ] : List (κ × α) → κ → α → List (κ × α)
  | [], k, v => [(k, v)]
  | p :: rest, k, v => if p.1 = k then (k, v) :: rest else p :: dictSet rest k v

/-- Python `del d[k]` (guarded by `k in d`, so deleting an absent key is a
no-op here as in the source). -/
def dictDel {κ α : Type} [DecidableEq κ] (d : List (κ × α)) (k : κ) : List (κ × α) :=
  d.filter (fun p => decide (p.1 ≠ k))

/-- Python `d.update(other)`: assign every binding of `other` into `d`. -/
def dictUpdate {κ α : Type} [DecidableEq κ] (d other : List (κ × α)) : List (κ × α) :=
  other.foldl (fun d p => dictSet d p.1 p.2) d

/-- Python `str.startswith`, computed on the underlying character lists. -/
def strStartsWith (s pre : String) : Bool :=
  pre.data.isPrefixOf s.data

/-- Inputs consumed by `SafetyManager._check_system_resources` (the `psutil`
queries); passed explicitly since they come from the outside world. -/
structure SysEnv where
  psutil_available : Bool
  memory_percent : ℚ
  cpu_percent : ℚ
deriving Repr, DecidableEq

/-- The mutable fields of `SafetyManager` (src/core/safety.py).
`pump_timeouts` maps a pump pin to its absolute deadline (a Python dict). -/
structure SafetyState where
  emergency_stop_active : Bool
  pump_timeouts : List (Nat × ℚ)
  last_watchdog_reset : ℚ
  safety_violations : List String
  watchdog_timeout : ℚ
  max_pump_runtime : ℚ
deriving Repr, DecidableEq

/-- `SafetyManager.__init__` at time `now` (watchdog timeout 30 s,
max pump runtime 600 s, no registry entries, no emergency). -/
def safetyInit (now : ℚ) : SafetyState :=
  { emergency_stop_active := false
    pump_timeouts := []
    last_watchdog_reset := now
    safety_violations := []
    watchdog_timeout := 30
    max_pump_runtime := 600 }

/-- `SafetyManager._check_emergency_stop`: returns the current flag. -/
def checkEmergencyStopFlag (s : SafetyState) : Bool :=
  s.emergency_stop_active

/-- `SafetyManager._check_system_resources`: `psutil` missing means the check
is skipped (true); otherwise memory must be ≤ 90 % and CPU ≤ 95 %. -/
def checkSystemResources (env : SysEnv) : Bool :=
  if env.psutil_available then
    if env.memory_percent > 90 then false
    else if env.cpu_percent > 95 then false
    else true
  else true

/-- `SafetyManager._check_hardware_connections`: the source unconditionally
returns `True` ("assume connections are good"). -/
def checkHardwareConnections : Bool :=
  true

/-- `SafetyManager.check_all_safety_conditions`: accumulates a violation list
from the emergency flag, the resource check and the hardware check, stores it
if it changed, and returns whether no violation occurred. -/
def check_all_safety_conditions (env : SysEnv) (s : SafetyState) : Bool × SafetyState :=
  let r1 := checkEmergencyStopFlag s
  let violations1 : List String := if r1 then ["Emergency stop activated"] else []
  let safe1 : Bool := !r1
  let r2 := checkSystemResources env
  let violations2 := if !r2 then violations1 ++ ["System resource limits exceeded"] else violations1
  let safe2 : Bool := safe1 && r2
  let r3 := checkHardwareConnections
  let violations3 := if !r3 then violations2 ++ ["Hardware connection issues detected"] else violations2
  let safe3 : Bool := safe2 && r3
  let s' := if violations3 = s.safety_violations then s else { s with safety_violations := violations3 }
  (safe3, s')

/-- `SafetyManager.check_pump_safety`: general conditions must pass and the
pin must have no live registry entry. -/
def check_pump_safety (env : SysEnv) (s : SafetyState) (pin : Nat) : Bool × SafetyState :=
  let res := check_all_safety_conditions env s
  if !res.1 then (false, res.2)
  else if (dictGet res.2.pump_timeouts pin).isSome then (false, res.2)
  else (true, res.2)

/-- `SafetyManager.register_pump_start`: store `now + timeout` as the pin's
deadline (defaulting to `max_pump_runtime`); a plain dict assignment. -/
def register_pump_start (now : ℚ) (s : SafetyState) (pin : Nat) (timeout : Option ℚ) : SafetyState :=
  let t := timeout.getD s.max_pump_runtime
  { s with pump_timeouts := dictSet s.pump_timeouts pin (now + t) }

/-- `SafetyManager.register_pump_stop`: drop the pin's registry entry. -/
def register_pump_stop (s : SafetyState) (pin : Nat) : SafetyState :=
  { s with pump_timeouts := dictDel s.pump_timeouts pin }

/-- `SafetyManager.reset_watchdog`. -/
def reset_watchdog (now : ℚ) (s : SafetyState) : SafetyState :=
  { s with last_watchdog_reset := now }

/-- `SafetyManager.emergency_shutdown`: set the flag and clear the registry. -/
def emergency_shutdown (s : SafetyState) : SafetyState :=
  { s with emergency_stop_active := true, pump_timeouts := [] }

/-- `SafetyManager._check_watchdog_timeout`: if the watchdog is stale, run
`emergency_shutdown` and report failure. -/
def check_watchdog_timeout (now : ℚ) (s : SafetyState) : Bool × SafetyState :=
  if now - s.last_watchdog_reset > s.watchdog_timeout then (false, emergency_shutdown s)
  else (true, s)

/-- State of the GPIO output pins (`MockGPIO.pin_states`, written through
`GPIOManager.set_pin`). -/
structure GpioState where
  pin_states : List (Nat × Bool)
deriving Repr, DecidableEq

/-- `GPIOManager.set_pin`. -/
def set_pin (g : GpioState) (pin : Nat) (state : Bool) : GpioState :=
  ⟨dictSet g.pin_states pin state⟩

/-- `SafetyManager._check_pump_timeouts`: collect the expired pins, force each
of their GPIO pins low, and delete their registry entries. -/
def check_pump_timeouts (now : ℚ) (g : GpioState) (s : SafetyState) : GpioState × SafetyState :=
  let expired := (s.pump_timeouts.filter (fun p => decide (now > p.2))).map (·.1)
  let g' := expired.foldl (fun g pin => set_pin g pin false) g
  let s' := { s with pump_timeouts := s.pump_timeouts.filter (fun p => !decide (now > p.2)) }
  (g', s')

/-- One iteration of `SafetyManager._monitor_loop`: check all conditions,
then the watchdog, then the pump timeouts. -/
def monitor_pass (env : SysEnv) (now : ℚ) (g : GpioState) (s : SafetyState) :
    GpioState × SafetyState :=
  let s1 := (check_all_safety_conditions env s).2
  let s2 := (check_watchdog_timeout now s1).2
  check_pump_timeouts now g s2

/-- A benign environment: `psutil` present, memory and CPU usage moderate. -/
def envOk : SysEnv :=
  { psutil_available := true, memory_percent := 50, cpu_percent := 50 }

example : (check_all_safety_conditions envOk (safetyInit 0)).1 = true := by decide

example : (check_pump_safety envOk (safetyInit 0) 18).1 = true := by decide

example :
    (check_pump_safety envOk { safetyInit 0 with pump_timeouts := [(18, 100)] } 18).1 = false := by
  decide

example : (emergency_shutdown (safetyInit 0)).emergency_stop_active = true := by decide

/-- The configuration record consumed by `HydroponicController`
(`_get_default_config` supplies the field values used below). -/
structure Config where
  pump_pins : List Nat
  pump_timeout : ℚ
  moisture_threshold : ℚ
  flood_duration : ℚ
  drain_duration : ℚ
  watchdog_timeout : ℚ
  emergency_pin : Nat
deriving Repr, DecidableEq

/-- `HydroponicController._get_default_config`. -/
def defaultConfig : Config :=
  { pump_pins := [18, 19, 20, 26]
    pump_timeout := 10
    moisture_threshold := 40
    flood_duration := 300
    drain_duration := 600
    watchdog_timeout := 30
    emergency_pin := 25 }

/-- Combined system state: GPIO output pins, the `SafetyManager` state, and
the `HydroponicController` fields `pump_states`, `last_sensor_readings`,
`emergency_stop` and `running`.  `timers` records the pending
`threading.Timer(timeout, ...)` one-shot force-off callbacks as
(absolute fire time, pin) pairs. -/
structure SysState where
  gpio : GpioState
  safety : SafetyState
  pump_states : List (Nat × Bool)
  last_sensor_readings : List (String × ℚ)
  emergency_stop : Bool
  running : Bool
  timers : List (ℚ × Nat)
deriving Repr, DecidableEq

/-- State after `HydroponicController.__init__` and `_initialize_hardware` at
time 0: every configured pump pin set up as an output at `False`, the safety
manager freshly constructed, no sensor readings yet. -/
def initState (cfg : Config) : SysState :=
  { gpio := ⟨cfg.pump_pins.map (fun p => (p, false))⟩
    safety := safetyInit 0
    pump_states := cfg.pump_pins.map (fun p => (p, false))
    last_sensor_readings := []
    emergency_stop := false
    running := true
    timers := [] }

/-- `HydroponicController._start_pump`: gate on `check_pump_safety`, drive the
pin high, and schedule a one-shot `threading.Timer` force-off at
`now + timeout`.  Returns whether the pump was started. -/
def start_pump (env : SysEnv) (now : ℚ) (st : SysState) (pin : Nat) (timeout : ℚ) :
    Bool × SysState :=
  let res := check_pump_safety env st.safety pin
  let st := { st with safety := res.2 }
  if !res.1 then (false, st)
  else
    (true, { st with gpio := set_pin st.gpio pin true
                     timers := st.timers ++ [(now + timeout, pin)] })

/-- `HydroponicController._force_stop_pump` (the timeout callback): drive the
pin low and clear the controller's `pump_states` flag. -/
def force_stop_pump (st : SysState) (pin : Nat) : SysState :=
  { st with gpio := set_pin st.gpio pin false
            pump_states := dictSet st.pump_states pin false }

/-- The pump-starting loop at the top of `HydroponicController._flood_phase`:
try `_start_pump(pin, timeout=flood_duration)` on every configured pin, and
mark `pump_states[pin] = True` for each pin that started. -/
def flood_start_pumps (env : SysEnv) (now : ℚ) (cfg : Config) (st : SysState) : SysState :=
  cfg.pump_pins.foldl
    (fun st pin =>
      let res := start_pump env now st pin cfg.flood_duration
      if res.1 then { res.2 with pump_states := dictSet res.2.pump_states pin true }
      else res.2)
    st

/-- `HydroponicController._stop_all_pumps`: for every configured pump pin,
drive it low and clear its `pump_states` flag — per pin exactly the body of
`_force_stop_pump`. -/
def stop_all_pumps (cfg : Config) (st : SysState) : SysState :=
  cfg.pump_pins.foldl force_stop_pump st

/-- `OverflowSensorManager.check_overflow` distilled over the external input
pin levels `inp`: a float switch is active low, so overflow is detected when
any overflow-sensor pin reads false. -/
def check_overflow (ovPins : List Nat) (inp : Nat → Bool) : Bool :=
  ovPins.any (fun pin => !inp pin)

/-- Overflow sensor pins from the environment default
`OVERFLOW_SENSOR_PINS=21,22,23,24`. -/
def overflowPins : List Nat := [21, 22, 23, 24]

/-- `HydroponicController._check_emergency_stop`: the emergency input pin is
active low; when it first becomes active the controller latches
`emergency_stop`. -/
def controller_check_emergency_stop (cfg : Config) (inp : Nat → Bool) (st : SysState) :
    Bool × SysState :=
  let active := !inp cfg.emergency_pin
  if active && !st.emergency_stop then (active, { st with emergency_stop := true })
  else (active, st)

/-- The monitoring loop inside `HydroponicController._flood_phase`: each tick
checks overflow (break), then the emergency stop (break), then sleeps 1 s.
`fuel` is the remaining number of 1-second ticks before `flood_duration`
elapses; `inp n` gives the input-pin levels at tick `n`.  Returns the state
and the number of completed ticks before the loop exited. -/
def flood_monitor (cfg : Config) (ovPins : List Nat) (inp : Nat → Nat → Bool) :
    Nat → SysState → SysState × Nat
  | 0, st => (st, 0)
  | fuel + 1, st =>
    if check_overflow ovPins (inp 0) then (st, 0)
    else
      let res := controller_check_emergency_stop cfg (inp 0) st
      if res.1 then (res.2, 0)
      else
        let rec' := flood_monitor cfg ovPins (fun n => inp (n + 1)) fuel res.2
        (rec'.1, rec'.2 + 1)

/-- `HydroponicController._flood_phase`: start the pumps, monitor until
overflow, emergency or elapsed duration, then stop all pumps. -/
def flood_phase (env : SysEnv) (cfg : Config) (ovPins : List Nat) (now : ℚ)
    (inp : Nat → Nat → Bool) (fuel : Nat) (st : SysState) : SysState × Nat :=
  let st := flood_start_pumps env now cfg st
  let res := flood_monitor cfg ovPins inp fuel st
  (stop_all_pumps cfg res.1, res.2)

/-- `HydroponicController._should_water`: true when any cached reading whose
sensor id starts with `moisture_` is strictly below the threshold. -/
def should_water (threshold : ℚ) (readings : List (String × ℚ)) : Bool :=
  readings.any (fun p => strStartsWith p.1 "moisture_" && decide (p.2 < threshold))

/-- `HydroponicController._execute_watering_cycle`: pre-flight
`check_all_safety_conditions` (abort on failure), then the flood phase, then
the drain phase (a pure sleep, so no state change). -/
def execute_watering_cycle (env : SysEnv) (cfg : Config) (ovPins : List Nat) (now : ℚ)
    (inp : Nat → Nat → Bool) (fuel : Nat) (st : SysState) : SysState :=
  let res := check_all_safety_conditions env st.safety
  let st := { st with safety := res.2 }
  if !res.1 then st
  else (flood_phase env cfg ovPins now inp fuel st).1

/-- `HydroponicController.emergency_shutdown`: stop all pumps, latch the
controller flags, and notify the safety manager. -/
def controller_emergency_shutdown (cfg : Config) (st : SysState) : SysState :=
  let st := stop_all_pumps cfg st
  { st with emergency_stop := true
            running := false
            safety := emergency_shutdown st.safety }

/-- One iteration of `HydroponicController._main_loop`: check the emergency
stop (shut down on activation), merge the fresh moisture and overflow
readings into the cache, water if needed, then run the safety check and stop
all pumps if it fails.  `moisture` and `ovReads` are this tick's sensor
outputs; `inp` supplies input-pin levels to the watering cycle. -/
def main_loop_tick (env : SysEnv) (now : ℚ) (inp : Nat → Nat → Bool) (cfg : Config)
    (ovPins : List Nat) (moisture ovReads : List (String × ℚ)) (fuel : Nat)
    (st : SysState) : SysState :=
  let res := controller_check_emergency_stop cfg (inp 0) st
  if res.1 then controller_emergency_shutdown cfg res.2
  else
    let st := res.2
    let st := { st with
      last_sensor_readings := dictUpdate (dictUpdate st.last_sensor_readings moisture) ovReads }
    let st :=
      if should_water cfg.moisture_threshold st.last_sensor_readings then
        execute_watering_cycle env cfg ovPins now inp fuel st
      else st
    let res2 := check_all_safety_conditions env st.safety
    let st := { st with safety := res2.2 }
    if !res2.1 then stop_all_pumps cfg st else st

example :
    (start_pump envOk 0 (initState defaultConfig) 18 300).1 = true := by decide

example :
    (start_pump envOk 0 (initState defaultConfig) 18 300).2.safety.pump_timeouts = [] := by
  decide

example : should_water 40 [("moisture_a", 35), ("moisture_b", 45)] = true := by decide

example : should_water 40 [("moisture_a", 50), ("moisture_b", 55)] = false := by decide

theorem dictGet_dictSet_self {κ α : Type} [DecidableEq κ] (d : List (κ × α)) (k : κ) (v : α) :
    dictGet (dictSet d k v) k = some v := by
  induction d with
  | nil => simp [dictSet, dictGet]
  | cons p rest ih =>
    by_cases h : p.1 = k
    · simp [dictSet, dictGet, h]
    · simp [dictSet, dictGet, h, ih]

theorem dictGet_dictSet_ne {κ α : Type} [DecidableEq κ] (d : List (κ × α)) (k k' : κ) (v : α)
    (h : k' ≠ k) : dictGet (dictSet d k v) k' = dictGet d k' := by
  have h1 : ¬ (k = k') := fun e => h e.symm
  induction d with
  | nil => simp only [dictSet, dictGet, if_neg h1]
  | cons p rest ih =>
    by_cases hp : p.1 = k
    · have h2 : ¬ (p.1 = k') := by rw [hp]; exact h1
      simp only [dictSet, if_pos hp, dictGet, if_neg h1, if_neg h2]
    · by_cases hk : p.1 = k'
      · simp only [dictSet, if_neg hp, dictGet, if_pos hk]
      · simp only [dictSet, if_neg hp, dictGet, if_neg hk, ih]

theorem mem_keys_dictSet {κ α : Type} [DecidableEq κ] (d : List (κ × α)) (k k' : κ) (v : α)
    (h : k' ∈ (dictSet d k v).map Prod.fst) : k' = k ∨ k' ∈ d.map Prod.fst := by
  induction d with
  | nil => simpa [dictSet] using h
  | cons p rest ih =>
    by_cases hp : p.1 = k
    · simp only [dictSet, if_pos hp, List.map_cons, List.mem_cons] at h
      rcases h with h | h
      · exact Or.inl h
      · exact Or.inr (by rw [List.map_cons]; exact List.mem_cons_of_mem _ h)
    · simp only [dictSet, if_neg hp, List.map_cons, List.mem_cons] at h
      rcases h with h | h
      · exact Or.inr (by rw [List.map_cons, h]; exact List.mem_cons_self _ _)
      · rcases ih h with h' | h'
        · exact Or.inl h'
        · exact Or.inr (by rw [List.map_cons]; exact List.mem_cons_of_mem _ h')

theorem dictSet_keys_nodup {κ α : Type} [DecidableEq κ] (d : List (κ × α)) (k : κ) (v : α)
    (h : (d.map Prod.fst).Nodup) : ((dictSet d k v).map Prod.fst).Nodup := by
  induction d with
  | nil => simp [dictSet]
  | cons p rest ih =>
    rw [List.map_cons, List.nodup_cons] at h
    by_cases hp : p.1 = k
    · simp only [dictSet, if_pos hp, List.map_cons, List.nodup_cons]
      exact ⟨by rw [← hp]; exact h.1, h.2⟩
    · simp only [dictSet, if_neg hp, List.map_cons, List.nodup_cons]
      refine ⟨fun hmem => ?_, ih h.2⟩
      rcases mem_keys_dictSet rest k p.1 v hmem with h' | h'
      · exact hp h'
      · exact h.1 h'

theorem check_all_preserves (env : SysEnv) (s : SafetyState) :
    (check_all_safety_conditions env s).2.emergency_stop_active = s.emergency_stop_active ∧
    (check_all_safety_conditions env s).2.pump_timeouts = s.pump_timeouts ∧
    (check_all_safety_conditions env s).2.last_watchdog_reset = s.last_watchdog_reset ∧
    (check_all_safety_conditions env s).2.watchdog_timeout = s.watchdog_timeout ∧
    (check_all_safety_conditions env s).2.max_pump_runtime = s.max_pump_runtime := by
  simp only [check_all_safety_conditions]
  split_ifs <;> simp

theorem check_pump_safety_snd (env : SysEnv) (s : SafetyState) (pin : Nat) :
    (check_pump_safety env s pin).2 = (check_all_safety_conditions env s).2 := by
  simp only [check_pump_safety]
  split
  · rfl
  · split <;> rfl

theorem start_pump_safety_eq (env : SysEnv) (now : ℚ) (st : SysState) (pin : Nat) (t : ℚ) :
    ((start_pump env now st pin t).2).safety = (check_pump_safety env st.safety pin).2 := by
  simp only [start_pump]
  split <;> rfl

theorem start_pump_preserves_timeouts (env : SysEnv) (now : ℚ) (st : SysState) (pin : Nat)
    (t : ℚ) : ((start_pump env now st pin t).2).safety.pump_timeouts = st.safety.pump_timeouts := by
  rw [start_pump_safety_eq, check_pump_safety_snd]
  exact (check_all_preserves env st.safety).2.1

theorem start_pump_preserves_lwr (env : SysEnv) (now : ℚ) (st : SysState) (pin : Nat)
    (t : ℚ) :
    ((start_pump env now st pin t).2).safety.last_watchdog_reset
      = st.safety.last_watchdog_reset := by
  rw [start_pump_safety_eq, check_pump_safety_snd]
  exact (check_all_preserves env st.safety).2.2.1

theorem foldl_preserve {β γ : Type} (f : SysState → β → SysState) (proj : SysState → γ)
    (h : ∀ st b, proj (f st b) = proj st) :
    ∀ (l : List β) (st : SysState), proj (l.foldl f st) = proj st := by
  intro l
  induction l with
  | nil => intro st; rfl
  | cons b rest ih => intro st; rw [List.foldl_cons, ih, h]

theorem flood_start_pumps_preserves_timeouts (env : SysEnv) (now : ℚ) (cfg : Config)
    (st : SysState) :
    (flood_start_pumps env now cfg st).safety.pump_timeouts = st.safety.pump_timeouts := by
  refine foldl_preserve _ (fun st => st.safety.pump_timeouts) ?_ cfg.pump_pins st
  intro st pin
  simp only
  split
  · exact start_pump_preserves_timeouts env now st pin cfg.flood_duration
  · exact start_pump_preserves_timeouts env now st pin cfg.flood_duration

theorem flood_start_pumps_preserves_lwr (env : SysEnv) (now : ℚ) (cfg : Config)
    (st : SysState) :
    (flood_start_pumps env now cfg st).safety.last_watchdog_reset
      = st.safety.last_watchdog_reset := by
  refine foldl_preserve _ (fun st => st.safety.last_watchdog_reset) ?_ cfg.pump_pins st
  intro st pin
  simp only
  split
  · exact start_pump_preserves_lwr env now st pin cfg.flood_duration
  · exact start_pump_preserves_lwr env now st pin cfg.flood_duration

theorem controller_check_emergency_stop_safety (cfg : Config) (inp : Nat → Bool)
    (st : SysState) : (controller_check_emergency_stop cfg inp st).2.safety = st.safety := by
  simp only [controller_check_emergency_stop]
  split <;> rfl

theorem flood_monitor_safety (cfg : Config) (ovPins : List Nat) :
    ∀ (fuel : Nat) (inp : Nat → Nat → Bool) (st : SysState),
      ((flood_monitor cfg ovPins inp fuel st).1).safety = st.safety := by
  intro fuel
  induction fuel with
  | zero => intro inp st; rfl
  | succ n ih =>
    intro inp st
    simp only [flood_monitor]
    split
    · rfl
    · split
      · rw [controller_check_emergency_stop_safety]
      · rw [ih, controller_check_emergency_stop_safety]

theorem stop_all_pumps_safety (cfg : Config) (st : SysState) :
    (stop_all_pumps cfg st).safety = st.safety := by
  refine foldl_preserve _ (fun st => st.safety) ?_ cfg.pump_pins st
  intro st pin
  rfl

theorem flood_phase_preserves_timeouts (env : SysEnv) (cfg : Config) (ovPins : List Nat)
    (now : ℚ) (inp : Nat → Nat → Bool) (fuel : Nat) (st : SysState) :
    ((flood_phase env cfg ovPins now inp fuel st).1).safety.pump_timeouts
      = st.safety.pump_timeouts := by
  simp only [flood_phase]
  rw [stop_all_pumps_safety, flood_monitor_safety]
  exact flood_start_pumps_preserves_timeouts env now cfg st

theorem flood_phase_preserves_lwr (env : SysEnv) (cfg : Config) (ovPins : List Nat)
    (now : ℚ) (inp : Nat → Nat → Bool) (fuel : Nat) (st : SysState) :
    ((flood_phase env cfg ovPins now inp fuel st).1).safety.last_watchdog_reset
      = st.safety.last_watchdog_reset := by
  simp only [flood_phase]
  rw [stop_all_pumps_safety, flood_monitor_safety]
  exact flood_start_pumps_preserves_lwr env now cfg st

theorem execute_watering_cycle_preserves_lwr (env : SysEnv) (cfg : Config) (ovPins : List Nat)
    (now : ℚ) (inp : Nat → Nat → Bool) (fuel : Nat) (st : SysState) :
    (execute_watering_cycle env cfg ovPins now inp fuel st).safety.last_watchdog_reset
      = st.safety.last_watchdog_reset := by
  simp only [execute_watering_cycle]
  split
  · exact (check_all_preserves env st.safety).2.2.1
  · rw [flood_phase_preserves_lwr]
    exact (check_all_preserves env st.safety).2.2.1

theorem controller_emergency_shutdown_lwr (cfg : Config) (st : SysState) :
    (controller_emergency_shutdown cfg st).safety.last_watchdog_reset
      = st.safety.last_watchdog_reset := by
  simp only [controller_emergency_shutdown, emergency_shutdown]
  rw [stop_all_pumps_safety]

theorem foldl_force_stop_preserve (pins : List Nat) :
    ∀ (st : SysState) (pin : Nat), pin ∉ pins →
      dictGet (pins.foldl force_stop_pump st).gpio.pin_states pin
          = dictGet st.gpio.pin_states pin ∧
      dictGet (pins.foldl force_stop_pump st).pump_states pin
          = dictGet st.pump_states pin := by
  induction pins with
  | nil => intro st pin _; exact ⟨rfl, rfl⟩
  | cons q rest ih =>
    intro st pin h
    rw [List.foldl_cons]
    have hq : pin ≠ q := fun e => h (e ▸ List.mem_cons_self q rest)
    have hr : pin ∉ rest := fun e => h (List.mem_cons_of_mem _ e)
    have hrec := ih (force_stop_pump st q) pin hr
    exact ⟨hrec.1.trans (dictGet_dictSet_ne _ _ _ _ hq),
           hrec.2.trans (dictGet_dictSet_ne _ _ _ _ hq)⟩

theorem foldl_force_stop_sets_false (pins : List Nat) :
    ∀ (st : SysState) (pin : Nat), pin ∈ pins →
      dictGet (pins.foldl force_stop_pump st).gpio.pin_states pin = some false ∧
      dictGet (pins.foldl force_stop_pump st).pump_states pin = some false := by
  induction pins with
  | nil => intro st pin h; cases h
  | cons q rest ih =>
    intro st pin h
    rw [List.foldl_cons]
    by_cases hm : pin ∈ rest
    · exact ih _ pin hm
    · have hq : pin = q := by
        rcases List.mem_cons.mp h with h' | h'
        · exact h'
        · exact absurd h' hm
      subst hq
      have hpres := foldl_force_stop_preserve rest (force_stop_pump st pin) pin hm
      exact ⟨hpres.1.trans (dictGet_dictSet_self _ _ _),
             hpres.2.trans (dictGet_dictSet_self _ _ _)⟩

theorem stop_all_pumps_pins_false (cfg : Config) (st : SysState) (pin : Nat)
    (h : pin ∈ cfg.pump_pins) :
    dictGet (stop_all_pumps cfg st).gpio.pin_states pin = some false ∧
    dictGet (stop_all_pumps cfg st).pump_states pin = some false :=
  foldl_force_stop_sets_false cfg.pump_pins st pin h

theorem flood_monitor_overflow_exit (cfg : Config) (ovPins : List Nat)
    (inp : Nat → Nat → Bool) (fuel : Nat) (st : SysState)
    (h : check_overflow ovPins (inp 0) = true) :
    flood_monitor cfg ovPins inp fuel st = (st, 0) := by
  cases fuel with
  | zero => rfl
  | succ n => simp [flood_monitor, h]

theorem dictGet_eq_some_mem {κ α : Type} [DecidableEq κ] (d : List (κ × α)) (k : κ) (v : α)
    (h : dictGet d k = some v) : (k, v) ∈ d := by
  induction d with
  | nil => simp [dictGet] at h
  | cons p rest ih =>
    obtain ⟨a, b⟩ := p
    by_cases hp : a = k
    · simp only [dictGet, if_pos hp] at h
      obtain rfl := Option.some_injective _ h
      rw [hp]
      exact List.mem_cons_self _ _
    · simp only [dictGet, if_neg hp] at h
      exact List.mem_cons_of_mem _ (ih h)

theorem main_loop_tick_preserves_lwr (env : SysEnv) (now : ℚ) (inp : Nat → Nat → Bool)
    (cfg : Config) (ovPins : List Nat) (moisture ovReads : List (String × ℚ)) (fuel : Nat)
    (st : SysState) :
    (main_loop_tick env now inp cfg ovPins moisture ovReads fuel st).safety.last_watchdog_reset
      = st.safety.last_watchdog_reset := by
  simp only [main_loop_tick]
  split
  · rw [controller_emergency_shutdown_lwr, controller_check_emergency_stop_safety]
  · split
    · split
      · rw [stop_all_pumps_safety]
        refine Eq.trans (check_all_preserves env _).2.2.1 ?_
        rw [execute_watering_cycle_preserves_lwr]
        rw [controller_check_emergency_stop_safety]
      · refine Eq.trans (check_all_preserves env _).2.2.1 ?_
        rw [execute_watering_cycle_preserves_lwr]
        rw [controller_check_emergency_stop_safety]
    · split
      · rw [stop_all_pumps_safety]
        refine Eq.trans (check_all_preserves env _).2.2.1 ?_
        rw [controller_check_emergency_stop_safety]
      · refine Eq.trans (check_all_preserves env _).2.2.1 ?_
        rw [controller_check_emergency_stop_safety]

/-- The operations of `SafetyManager` that read or write its state, as an
enumeration (every public method and every internal check of the class). -/
inductive SafetyOp : Type
  | checkAll (env : SysEnv)
  | checkPumpSafety (env : SysEnv) (pin : Nat)
  | registerStart (now : ℚ) (pin : Nat) (timeout : Option ℚ)
  | registerStop (pin : Nat)
  | resetWatchdog (now : ℚ)
  | shutdown
  | checkWatchdog (now : ℚ)
  | checkPumpTimeouts (now : ℚ)

/-- Effect of each `SafetyManager` operation on the GPIO and safety state. -/
def apply_safety_op (gs : GpioState × SafetyState) : SafetyOp → GpioState × SafetyState
  | .checkAll env => (gs.1, (check_all_safety_conditions env gs.2).2)
  | .checkPumpSafety env pin => (gs.1, (check_pump_safety env gs.2 pin).2)
  | .registerStart now pin t => (gs.1, register_pump_start now gs.2 pin t)
  | .registerStop pin => (gs.1, register_pump_stop gs.2 pin)
  | .resetWatchdog now => (gs.1, reset_watchdog now gs.2)
  | .shutdown => (gs.1, emergency_shutdown gs.2)
  | .checkWatchdog now => (gs.1, (check_watchdog_timeout now gs.2).2)
  | .checkPumpTimeouts now => check_pump_timeouts now gs.1 gs.2

/-- `MoistureSensorManager._convert_to_percentage`: look up the calibration
pair (defaulting to dry 500 / wet 200), return 50 when the calibration range
is empty, otherwise interpolate and clamp to [0, 100]. -/
def convert_to_percentage (calibration : Option (ℤ × ℤ)) (raw_value : ℤ) : ℚ :=
  let defaults : ℤ × ℤ := (500, 200)
  let dw := calibration.getD defaults
  if dw.1 = dw.2 then 50
  else
    let percentage : ℚ := ((dw.1 : ℚ) - (raw_value : ℚ)) / ((dw.1 : ℚ) - (dw.2 : ℚ)) * 100
    max 0 (min 100 percentage)

/-- `MoistureSensorManager._validate_reading`. -/
def validate_reading (value : ℚ) : Bool :=
  decide (0 ≤ value) && decide (value ≤ 100)

/-- `MoistureSensorManager.read_sensor`: when the cache is fresh, return the
cached reading; otherwise convert the raw capacitance (`raw = none` models
the I2C read raising, which the source catches and turns into `None`) and
return the percentage only when it validates. -/
def read_sensor (cache_fresh : Bool) (last_readings : List (String × ℚ)) (sensor_id : String)
    (calibration : Option (ℤ × ℤ)) (raw : Option ℤ) : Option ℚ :=
  if cache_fresh then dictGet last_readings sensor_id
  else
    match raw with
    | none => none
    | some raw_value =>
      let moisture_percent := convert_to_percentage calibration raw_value
      if validate_reading moisture_percent then some moisture_percent else none

theorem convert_to_percentage_bounds (calibration : Option (ℤ × ℤ)) (raw_value : ℤ) :
    0 ≤ convert_to_percentage calibration raw_value ∧
    convert_to_percentage calibration raw_value ≤ 100 := by
  simp only [convert_to_percentage]
  split
  · norm_num
  · exact ⟨le_max_left 0 _, max_le (by norm_num) (min_le_left _ _)⟩

theorem read_sensor_fresh_validated (last_readings : List (String × ℚ)) (sensor_id : String)
    (calibration : Option (ℤ × ℤ)) (raw : Option ℤ) (w : ℚ)
    (h : read_sensor false last_readings sensor_id calibration raw = some w) :
    validate_reading w = true := by
  cases raw with
  | none => simp [read_sensor] at h
  | some rv =>
    simp only [read_sensor, Bool.false_eq_true, if_false] at h
    by_cases hv : validate_reading (convert_to_percentage calibration rv) = true
    · rw [if_pos hv] at h
      obtain rfl := Option.some_injective _ h
      exact hv
    · rw [if_neg hv] at h
      exact absurd h (by simp)

/-- C7: once `emergency_stop_active` is true, no `SafetyManager` operation
clears it — the class has no reset operation at all, so every operation
(including watchdog checks, registry updates and the passage of any `now`)
preserves the flag — and every `check_pump_safety` call returns false while
it is set. -/
theorem claim_C7_emergency_latched (op : SafetyOp) (g : GpioState) (s : SafetyState)
    (env : SysEnv) (pin : Nat) (h : s.emergency_stop_active = true) :
    (apply_safety_op (g, s) op).2.emergency_stop_active = true ∧
    (check_pump_safety env s pin).1 = false := by
  constructor
  · cases op with
    | checkAll env' => exact ((check_all_preserves env' s).1).trans h
    | checkPumpSafety env' pin' =>
      rw [show (apply_safety_op (g, s) (SafetyOp.checkPumpSafety env' pin')).2
            = (check_pump_safety env' s pin').2 from rfl,
         check_pump_safety_snd]
      exact ((check_all_preserves env' s).1).trans h
    | registerStart now pin' t => exact h
    | registerStop pin' => exact h
    | resetWatchdog now => exact h
    | shutdown => rfl
    | checkWatchdog now =>
      rw [show (apply_safety_op (g, s) (SafetyOp.checkWatchdog now)).2
            = (check_watchdog_timeout now s).2 from rfl]
      simp only [check_watchdog_timeout]
      split
      · rfl
      · exact h
    | checkPumpTimeouts now => exact h
  · have hall : (check_all_safety_conditions env s).1 = false := by
      simp [check_all_safety_conditions, checkEmergencyStopFlag, h]
    simp [check_pump_safety, hall]

/-- Witness for C7 at a concrete emergency state, with `reset_watchdog` at a
later time as the operation. -/
theorem claim_C7_emergency_latched_witness :
    (emergency_shutdown (safetyInit 0)).emergency_stop_active = true ∧
    ((apply_safety_op (⟨[]⟩, emergency_shutdown (safetyInit 0))
        (SafetyOp.resetWatchdog 100)).2.emergency_stop_active = true ∧
      (check_pump_safety envOk (emergency_shutdown (safetyInit 0)) 18).1 = false) :=
  ⟨by decide,
   claim_C7_emergency_latched (SafetyOp.resetWatchdog 100) ⟨[]⟩
     (emergency_shutdown (safetyInit 0)) envOk 18 (by decide)⟩

/-- C8: `emergency_shutdown` sets the emergency flag, clears every registry
entry, and is idempotent — applying it twice from any state yields exactly
the state of applying it once (it is total, so it never errors). -/
theorem claim_C8_emergency_shutdown_idempotent (s : SafetyState) :
    (emergency_shutdown s).emergency_stop_active = true ∧
    (emergency_shutdown s).pump_timeouts = [] ∧
    emergency_shutdown (emergency_shutdown s) = emergency_shutdown s :=
  ⟨rfl, rfl, rfl⟩

/-- C9: `_should_water` is true exactly when some cached reading whose id
starts with `moisture_` is strictly below the threshold; ties and absent
sensors never trigger.  The three concrete scenarios of the spec at
threshold 40: {35, 45} waters, {50, 55} does not, and a missing `moisture_a`
with `moisture_b = 60` does not. -/
theorem claim_C9_should_water :
    (∀ (threshold : ℚ) (readings : List (String × ℚ)),
        should_water threshold readings = true ↔
          ∃ sid r, (sid, r) ∈ readings ∧ strStartsWith sid "moisture_" = true ∧
            r < threshold) ∧
    should_water 40 [("moisture_a", 35), ("moisture_b", 45)] = true ∧
    should_water 40 [("moisture_a", 50), ("moisture_b", 55)] = false ∧
    should_water 40 [("moisture_b", 60)] = false := by
  refine ⟨?_, by decide, by decide, by decide⟩
  intro th rs
  simp only [should_water, List.any_eq_true, Bool.and_eq_true, decide_eq_true_eq]
  constructor
  · rintro ⟨⟨sid, r⟩, hm, h1, h2⟩
    exact ⟨sid, r, hm, h1, h2⟩
  · rintro ⟨sid, r, hm, h1, h2⟩
    exact ⟨(sid, r), hm, h1, h2⟩

/-- C4 counterexample: `register_pump_start` on a pin that already has a live
deadline returns normally and overwrites the deadline (10 becomes 15), so it
does not fail with an `AlreadyRunning` error. -/
theorem claim_C4_register_overwrites_cex :
    dictGet (register_pump_start 0 (safetyInit 0) 18 (some 10)).pump_timeouts 18
        = some ((0 : ℚ) + 10) ∧
    dictGet (register_pump_start 5 (register_pump_start 0 (safetyInit 0) 18 (some 10)) 18
        (some 10)).pump_timeouts 18 = some ((5 : ℚ) + 10) ∧
    ((0 : ℚ) + 10) ≠ ((5 : ℚ) + 10) :=
  ⟨rfl, rfl, by norm_num⟩

/-- C4 amended: the registry is a keyed map, so at most one entry per pin
exists (key uniqueness is preserved by registration); registering a pin that
already has a live deadline silently overwrites the deadline and never
fails; the no-overlap protection lives in `check_pump_safety`, which returns
false whenever the pin already has an entry. -/
theorem claim_C4_register_guard (env : SysEnv) (s : SafetyState) (pin : Nat) (now t : ℚ)
    (hreg : (dictGet s.pump_timeouts pin).isSome = true)
    (hnd : (s.pump_timeouts.map Prod.fst).Nodup) :
    (check_pump_safety env s pin).1 = false ∧
    dictGet (register_pump_start now s pin (some t)).pump_timeouts pin = some (now + t) ∧
    ((register_pump_start now s pin (some t)).pump_timeouts.map Prod.fst).Nodup := by
  refine ⟨?_, ?_, ?_⟩
  · cases hb : (check_all_safety_conditions env s).1 with
    | false => simp [check_pump_safety, hb]
    | true =>
      have hsome : (dictGet (check_all_safety_conditions env s).2.pump_timeouts pin).isSome
          = true := by
        rw [(check_all_preserves env s).2.1]; exact hreg
      simp [check_pump_safety, hb, hsome]
  · simp only [register_pump_start, Option.getD_some]
    exact dictGet_dictSet_self _ _ _
  · simp only [register_pump_start, Option.getD_some]
    exact dictSet_keys_nodup _ _ _ hnd

/-- Witness for C4 amended: pin 18 registered at time 0 with a 10 s timeout,
re-registered at time 5. -/
theorem claim_C4_register_guard_witness :
    ((dictGet (register_pump_start 0 (safetyInit 0) 18 (some 10)).pump_timeouts 18).isSome
        = true ∧
      ((register_pump_start 0 (safetyInit 0) 18 (some 10)).pump_timeouts.map
        Prod.fst).Nodup) ∧
    ((check_pump_safety envOk (register_pump_start 0 (safetyInit 0) 18 (some 10)) 18).1
        = false ∧
      dictGet (register_pump_start 5 (register_pump_start 0 (safetyInit 0) 18 (some 10)) 18
        (some 10)).pump_timeouts 18 = some ((5 : ℚ) + 10) ∧
      ((register_pump_start 5 (register_pump_start 0 (safetyInit 0) 18 (some 10)) 18
        (some 10)).pump_timeouts.map Prod.fst).Nodup) :=
  ⟨⟨by decide, by decide⟩,
   claim_C4_register_guard envOk (register_pump_start 0 (safetyInit 0) 18 (some 10)) 18 5 10
     (by decide) (by decide)⟩

/-- C3 counterexample: a state whose watchdog has not been reset for 1000 s
and whose pin-18 registry entry expired at time 5 still gets `true` from
`check_all_safety_conditions`, and the call leaves the registry unswept —
the function takes no clock at all, so watchdog freshness and the timeout
sweep cannot be part of its verdict (they live in separate monitor steps,
as witnessed by `check_watchdog_timeout` failing at time 1000). -/
theorem claim_C3_check_all_cex :
    (check_all_safety_conditions envOk
        { safetyInit 0 with pump_timeouts := [(18, 5)] }).1 = true ∧
    (check_all_safety_conditions envOk
        { safetyInit 0 with pump_timeouts := [(18, 5)] }).2.pump_timeouts = [(18, 5)] ∧
    (check_watchdog_timeout 1000 { safetyInit 0 with pump_timeouts := [(18, 5)] }).1
        = false ∧
    ((1000 : ℚ) > 5) := by
  refine ⟨by decide, by decide, ?_, by norm_num⟩
  have hcond : (1000 : ℚ) -
      ({ safetyInit 0 with pump_timeouts := [(18, 5)] } : SafetyState).last_watchdog_reset
      > ({ safetyInit 0 with pump_timeouts := [(18, 5)] } : SafetyState).watchdog_timeout := by
    norm_num [safetyInit]
  simp only [check_watchdog_timeout, if_pos hcond]

/-- C3 amended: `check_all_safety_conditions` evaluates, in order, the
emergency flag, system-resource headroom, and hardware-connection integrity,
and returns true exactly when none of those three produced a violation; it
neither examines watchdog freshness nor sweeps the timeout registry (the
registry, the emergency flag and the watchdog timestamp are left untouched) —
those two checks are separate, later steps of the monitor loop. -/
theorem claim_C3_check_all_components (env : SysEnv) (s : SafetyState) (now : ℚ)
    (g : GpioState) :
    (check_all_safety_conditions env s).1
      = (!s.emergency_stop_active && checkSystemResources env && checkHardwareConnections) ∧
    (check_all_safety_conditions env s).2.pump_timeouts = s.pump_timeouts ∧
    (check_all_safety_conditions env s).2.emergency_stop_active = s.emergency_stop_active ∧
    (check_all_safety_conditions env s).2.last_watchdog_reset = s.last_watchdog_reset ∧
    monitor_pass env now g s
      = check_pump_timeouts now g
          (check_watchdog_timeout now (check_all_safety_conditions env s).2).2 :=
  ⟨rfl, (check_all_preserves env s).2.1, (check_all_preserves env s).1,
   (check_all_preserves env s).2.2.1, rfl⟩

/-- C1: on entering the flood phase, `_start_pump` gates each configured pin
on `check_pump_safety` and drives the passing pins high, but it never calls
`register_pump_start`: the pump-timeout registry is unchanged by every
activation (shown generally for `_start_pump` and for the whole flood-entry
loop), and concretely a fresh controller activating pin 18 for the flood
duration succeeds with the pin high while the registry stays empty. -/
theorem claim_C1_activation_never_registers :
    (∀ (env : SysEnv) (now : ℚ) (st : SysState) (pin : Nat) (t : ℚ),
        ((start_pump env now st pin t).2).safety.pump_timeouts = st.safety.pump_timeouts) ∧
    (∀ (env : SysEnv) (now : ℚ) (cfg : Config) (st : SysState),
        (flood_start_pumps env now cfg st).safety.pump_timeouts
          = st.safety.pump_timeouts) ∧
    (start_pump envOk 0 (initState defaultConfig) 18 defaultConfig.flood_duration).1
        = true ∧
    (start_pump envOk 0 (initState defaultConfig) 18
        defaultConfig.flood_duration).2.safety.pump_timeouts = [] ∧
    dictGet (start_pump envOk 0 (initState defaultConfig) 18
        defaultConfig.flood_duration).2.gpio.pin_states 18 = some true :=
  ⟨start_pump_preserves_timeouts, flood_start_pumps_preserves_timeouts,
   by decide, by decide, by decide⟩

/-- C5 counterexample: overflow detected at the very first monitor tick of
the flood phase does exit within the tick, but a pre-existing registry entry
for configured pump pin 18 survives the phase untouched — `_stop_all_pumps`
never unregisters anything. -/
theorem claim_C5_registry_survives_cex :
    (flood_phase envOk defaultConfig overflowPins 0 (fun _ _ => false) 300
        { initState defaultConfig with
          safety := { safetyInit 0 with pump_timeouts := [(18, 100)] } }).1.safety.pump_timeouts
      = [(18, 100)] ∧
    (flood_phase envOk defaultConfig overflowPins 0 (fun _ _ => false) 300
        { initState defaultConfig with
          safety := { safetyInit 0 with pump_timeouts := [(18, 100)] } }).2 = 0 ∧
    check_overflow overflowPins ((fun (_ _ : Nat) => false) 0) = true := by
  refine ⟨by decide, by decide, by decide⟩

/-- C5 amended: when overflow is detected on the first flood-monitor tick,
the flood phase exits with zero completed ticks and forces every configured
pump off (pin driven low and `pump_states` cleared), but the timeout
registry is not modified — no entry is unregistered; registry cleanup is
left to the safety monitor sweep. -/
theorem claim_C5_overflow_stops_pumps (env : SysEnv) (cfg : Config) (ovPins : List Nat)
    (now : ℚ) (inp : Nat → Nat → Bool) (fuel : Nat) (st : SysState) (pin : Nat)
    (hov : check_overflow ovPins (inp 0) = true) (hpin : pin ∈ cfg.pump_pins) :
    (flood_phase env cfg ovPins now inp fuel st).2 = 0 ∧
    dictGet ((flood_phase env cfg ovPins now inp fuel st).1).gpio.pin_states pin
        = some false ∧
    dictGet ((flood_phase env cfg ovPins now inp fuel st).1).pump_states pin = some false ∧
    ((flood_phase env cfg ovPins now inp fuel st).1).safety.pump_timeouts
      = st.safety.pump_timeouts := by
  have hmon := flood_monitor_overflow_exit cfg ovPins inp fuel
    (flood_start_pumps env now cfg st) hov
  refine ⟨?_, ?_, ?_, flood_phase_preserves_timeouts env cfg ovPins now inp fuel st⟩
  · simp only [flood_phase, hmon]
  · simp only [flood_phase, hmon]
    exact (stop_all_pumps_pins_false cfg _ pin hpin).1
  · simp only [flood_phase, hmon]
    exact (stop_all_pumps_pins_false cfg _ pin hpin).2

/-- Witness for C5 amended: default configuration, overflow active on every
float switch from tick 0, pin 18. -/
theorem claim_C5_overflow_stops_pumps_witness :
    (check_overflow overflowPins ((fun (_ _ : Nat) => false) 0) = true ∧
      18 ∈ defaultConfig.pump_pins) ∧
    ((flood_phase envOk defaultConfig overflowPins 0 (fun _ _ => false) 300
        (initState defaultConfig)).2 = 0 ∧
      dictGet ((flood_phase envOk defaultConfig overflowPins 0 (fun _ _ => false) 300
        (initState defaultConfig)).1).gpio.pin_states 18 = some false ∧
      dictGet ((flood_phase envOk defaultConfig overflowPins 0 (fun _ _ => false) 300
        (initState defaultConfig)).1).pump_states 18 = some false ∧
      ((flood_phase envOk defaultConfig overflowPins 0 (fun _ _ => false) 300
        (initState defaultConfig)).1).safety.pump_timeouts
        = (initState defaultConfig).safety.pump_timeouts) :=
  ⟨⟨by decide, by decide⟩,
   claim_C5_overflow_stops_pumps envOk defaultConfig overflowPins 0 (fun _ _ => false) 300
     (initState defaultConfig) 18 (by decide) (by decide)⟩

/-- C6 counterexample: activating pin 18 on a fresh controller creates no
timeout-registry entry (there is nothing for the deferred force-off to
remove), and firing `_force_stop_pump` on a state that does hold a registry
entry for pin 18 drives the pin low but leaves the entry in place — the
deferred force-off never touches the registry. -/
theorem claim_C6_deferred_force_off_cex :
    (start_pump envOk 0 (initState defaultConfig) 18 10).1 = true ∧
    (start_pump envOk 0 (initState defaultConfig) 18 10).2.safety.pump_timeouts = [] ∧
    (force_stop_pump
        { initState defaultConfig with
          safety := { safetyInit 0 with pump_timeouts := [(18, 10)] } } 18).safety.pump_timeouts
      = [(18, 10)] ∧
    dictGet (force_stop_pump
        { initState defaultConfig with
          safety := { safetyInit 0 with pump_timeouts := [(18, 10)] } } 18).gpio.pin_states 18
      = some false :=
  ⟨by decide, by decide, by decide, by decide⟩

/-- C6 amended: every successful `_start_pump` schedules exactly one
deferred force-off timer at `now + t` for its pin (a refused start schedules
none), activation leaves the timeout registry unchanged, and the timer
callback `_force_stop_pump` drives the pin low and clears `pump_states`
independent of the Control Loop, without modifying the safety state or
registry. -/
theorem claim_C6_deferred_force_off (env : SysEnv) (now : ℚ) (st : SysState) (pin : Nat)
    (t : ℚ) :
    ((start_pump env now st pin t).2).safety.pump_timeouts = st.safety.pump_timeouts ∧
    (start_pump env now st pin t).2.timers
      = (if (start_pump env now st pin t).1 then st.timers ++ [(now + t, pin)]
         else st.timers) ∧
    (force_stop_pump st pin).safety = st.safety ∧
    dictGet (force_stop_pump st pin).gpio.pin_states pin = some false ∧
    dictGet (force_stop_pump st pin).pump_states pin = some false := by
  refine ⟨start_pump_preserves_timeouts env now st pin t, ?_, rfl,
    dictGet_dictSet_self _ _ _, dictGet_dictSet_self _ _ _⟩
  cases hc : (check_pump_safety env st.safety pin).1 with
  | false => simp [start_pump, hc]
  | true => simp [start_pump, hc]

/-- C2: no step of a `_main_loop` iteration ever changes
`last_watchdog_reset` — the loop never calls `reset_watchdog` — so on a
controller whose safety manager was constructed at time 0, the safety
monitor pass at time 31 (> `watchdog_timeout` = 30) executes the emergency
shutdown even though every loop iteration completed normally. -/
theorem claim_C2_loop_never_resets_watchdog :
    (∀ (env : SysEnv) (now : ℚ) (inp : Nat → Nat → Bool) (cfg : Config) (ovPins : List Nat)
        (moisture ovReads : List (String × ℚ)) (fuel : Nat) (st : SysState),
        (main_loop_tick env now inp cfg ovPins moisture ovReads fuel
            st).safety.last_watchdog_reset
          = st.safety.last_watchdog_reset) ∧
    (safetyInit 0).last_watchdog_reset = 0 ∧
    (safetyInit 0).watchdog_timeout = 30 ∧
    (monitor_pass envOk 31 ⟨[]⟩ (safetyInit 0)).2.emergency_stop_active = true := by
  refine ⟨main_loop_tick_preserves_lwr, rfl, rfl, ?_⟩
  have h1 : (check_all_safety_conditions envOk (safetyInit 0)).2 = safetyInit 0 := by decide
  have hcond : (31 : ℚ) - (safetyInit 0).last_watchdog_reset
      > (safetyInit 0).watchdog_timeout := by
    norm_num [safetyInit]
  simp only [monitor_pass, h1, check_watchdog_timeout, if_pos hcond]
  decide

/-- C10: a moisture-sensor read returns `none` or a percentage in [0, 100]
(given that cached readings — themselves earlier validated outputs — are in
range), the raw-to-percentage conversion always lands in [0, 100], an empty
calibration range (dry = wet) yields 50 instead of dividing by zero, and a
value failing the 0-to-100 validation is never returned by a fresh read. -/
theorem claim_C10_read_sensor_bounded (calibration : Option (ℤ × ℤ)) (raw : Option ℤ)
    (cache_fresh : Bool) (last_readings : List (String × ℚ)) (sensor_id : String)
    (d raw_value : ℤ) (w v : ℚ)
    (hcache : ∀ p ∈ last_readings, 0 ≤ p.2 ∧ p.2 ≤ 100) :
    (read_sensor cache_fresh last_readings sensor_id calibration raw = some w →
        0 ≤ w ∧ w ≤ 100) ∧
    (0 ≤ convert_to_percentage calibration raw_value ∧
      convert_to_percentage calibration raw_value ≤ 100) ∧
    convert_to_percentage (some (d, d)) raw_value = 50 ∧
    (validate_reading v = false →
        read_sensor false last_readings sensor_id calibration raw ≠ some v) := by
  refine ⟨?_, convert_to_percentage_bounds calibration raw_value,
    by simp [convert_to_percentage], ?_⟩
  · intro h
    cases cache_fresh with
    | true =>
      simp only [read_sensor, if_pos rfl] at h
      exact hcache _ (dictGet_eq_some_mem last_readings sensor_id w h)
    | false =>
      have hv := read_sensor_fresh_validated last_readings sensor_id calibration raw w h
      simp only [validate_reading, Bool.and_eq_true, decide_eq_true_eq] at hv
      exact hv
  · intro hbad h
    have hv := read_sensor_fresh_validated last_readings sensor_id calibration raw v h
    rw [hbad] at hv
    exact Bool.false_ne_true hv

/-- Witness for C10: default calibration (dry 500, wet 200), raw value 350,
fresh (non-cached) read, cache holding one in-range reading. -/
theorem claim_C10_read_sensor_bounded_witness :
    (∀ p ∈ [(("moisture_20" : String), (55 : ℚ))], 0 ≤ p.2 ∧ p.2 ≤ 100) ∧
    ((read_sensor false [("moisture_20", 55)] "moisture_20" (some (500, 200)) (some 350)
          = some 50 → (0 : ℚ) ≤ 50 ∧ (50 : ℚ) ≤ 100) ∧
      (0 ≤ convert_to_percentage (some (500, 200)) 350 ∧
        convert_to_percentage (some (500, 200)) 350 ≤ 100) ∧
      convert_to_percentage (some (400, 400)) 350 = 50 ∧
      (validate_reading 101 = false →
        read_sensor false [("moisture_20", 55)] "moisture_20" (some (500, 200)) (some 350)
          ≠ some 101)) :=
  ⟨by decide,
   claim_C10_read_sensor_bounded (some (500, 200)) (some 350) false [("moisture_20", 55)]
     "moisture_20" 400 350 50 101 (by decide)⟩

end OrchidBot
